import Mathlib

/-!
Shallow embedding of `src/main.py` (alvgaona/pick-and-place): a RoboDK
pick-and-place script.  Scene lookups are modelled by a validity oracle,
the run produces a trace of issued commands, and absolute poses are
threaded as explicit state.  The effect of motion commands on poses is an
arbitrary parameter (the external simulator), while `setPoseAbs` and
`setParent` have their RoboDK meaning on the pose state.
-/

/-- Absolute poses are opaque values; equality is the only operation used. -/
def Pose := Nat

instance : DecidableEq Pose := instDecidableEqNat

instance : OfNat Pose n := ⟨(n : Nat)⟩

/-- The item-type filter passed to `RDK.Item(name, itemtype)`. -/
inductive ItemType
  | frame
  | target
  | tool
  | robot
  | any
deriving DecidableEq

/-- An item handle returned by `RDK.Item`: a name, the type filter used to
look it up, and whether `Valid()` is true. -/
structure Item where
  name : String
  ty : ItemType
  valid : Bool
deriving DecidableEq

/-- The simulator scene: which (name, type) lookups return a valid item. -/
structure Scene where
  validAt : String → ItemType → Bool

/-- `RDK.Item(name, ty)`: always returns a handle; validity comes from the scene. -/
def Scene.item (s : Scene) (name : String) (ty : ItemType) : Item :=
  ⟨name, ty, s.validAt name ty⟩

/-- Python exceptions raised by the script. -/
inductive Err
  /-- `ValueError(f"Target ... not found in RoboDK")`, carrying the target name. -/
  | targetNotFound (name : String)
  /-- `ValueError("Robot ... not found. Please check the robot name in RoboDK.")`. -/
  | robotNotFound (name : String)
  /-- `ValueError("Gripper ... not found")`. -/
  | gripperNotFound (name : String)
  /-- `ValueError("TCP not found")` — the message carries no item name. -/
  | tcpNotFound
  /-- Python `KeyError` on a dict subscript, carrying the missing key. -/
  | keyError (key : String)
deriving DecidableEq

/-- Commands issued to the simulator, in program order. -/
inductive Ev
  | gripperMoveJ (target : String)
  | robotMoveJ (target : String)
  | robotMoveL (target : String)
  | setSpeedJoints (v : Nat)
  | setAccelerationJoints (v : Nat)
  | setSpeed (v : Nat)
  | setAcceleration (v : Nat)
  | setPoseFrame (frame : String)
  | attachClosest
  | detachAll (frame : String)
  | setParent (itemName : String) (frame : String)
  | setPoseAbs (itemName : String)
deriving DecidableEq

/-- The motion commands proper: joint moves, linear moves and the gripper
open/close moves (which are `MoveJ` on the gripper). -/
def isMotionCmd : Ev → Bool
  | .gripperMoveJ _ => true
  | .robotMoveJ _ => true
  | .robotMoveL _ => true
  | _ => false

/-- Run state: the trace of commands issued so far and the current absolute
pose of every item, keyed by raw item name. -/
structure St where
  trace : List Ev
  poses : String → Pose

/-- A run configuration: the scene plus the simulator physics.  `moveEff`
says how a motion/attach/detach command changes absolute poses (unknown to
the script); `parentEff` gives the new absolute pose of an item after it is
re-parented to a frame. -/
structure Config where
  scene : Scene
  moveEff : Ev → (String → Pose) → (String → Pose)
  parentEff : String → String → (String → Pose) → Pose

/-- Issue a motion / attach / detach command: the simulator may move items. -/
def emitM (c : Config) (e : Ev) (st : St) : St :=
  ⟨st.trace ++ [e], c.moveEff e st.poses⟩

/-- Issue a configuration command (speeds, accelerations, pose frame):
poses are unchanged. -/
def emitC (e : Ev) (st : St) : St :=
  ⟨st.trace ++ [e], st.poses⟩

/-- `item.setParent(frame)`: only the re-parented item's pose can change. -/
def doSetParent (c : Config) (itemName frameName : String) (st : St) : St :=
  ⟨st.trace ++ [.setParent itemName frameName],
   fun n => if n = itemName then c.parentEff itemName frameName st.poses else st.poses n⟩

/-- `item.setPoseAbs(p)`: sets the item's absolute pose to exactly `p`. -/
def doSetPoseAbs (itemName : String) (p : Pose) (st : St) : St :=
  ⟨st.trace ++ [.setPoseAbs itemName],
   fun n => if n = itemName then p else st.poses n⟩

/-- Python dict lookup on an association list (dicts here have unique keys
inserted in list order). -/
def lookupA (k : String) : List (String × Item) → Option Item
  | [] => none
  | (n, it) :: rest => if n = k then some it else lookupA k rest

/-- Frame names to load from RoboDK (module constant `FRAME_NAMES`). -/
def FRAME_NAMES : List String :=
  ["Ground", "Table", "Base Frame", "workframe", "UR3e Base",
   "Block1", "Block2", "Block3", "Block4", "Gripper"]

/-- Target names to load from RoboDK (module constant `TARGET_NAMES`). -/
def TARGET_NAMES : List String :=
  ["Home", "Aprox1", "Block1", "Obj1", "Close", "Open"]

/-- The dict literal in `read_blocks`: logical block name paired with the raw
item name looked up for it. -/
def BLOCK_ITEMS : List (String × String) :=
  [("Block1", "_PIEZA_Bloque20x30x20"),
   ("Block2", "_PIEZA_Bloque20x30x10"),
   ("Block3", "_PIEZA_Bloque20x30x40"),
   ("Block4", "_PIEZA_Bloque20x30x30")]

/-- `read_frames`: looks up every name with `ITEM_TYPE_FRAME`; a valid item
is stored under its name, an invalid one is only logged and omitted. -/
def read_frames (s : Scene) : List String → List (String × Item)
  | [] => []
  | n :: rest =>
    let frame := s.item n .frame
    if frame.valid then (n, frame) :: read_frames s rest
    else read_frames s rest

/-- `read_targets`: looks up every name with `ITEM_TYPE_TARGET`; the first
invalid item raises `ValueError` naming the target. -/
def read_targets (s : Scene) : List String → Except Err (List (String × Item))
  | [] => .ok []
  | n :: rest =>
    let target := s.item n .target
    if target.valid then
      match read_targets s rest with
      | .ok ts => .ok ((n, target) :: ts)
      | .error e => .error e
    else .error (.targetNotFound n)

/-- `read_blocks`: builds the four-entry dict with untyped lookups and no
validity check. -/
def read_blocks (s : Scene) : List (String × Item) :=
  BLOCK_ITEMS.map (fun p => (p.1, s.item p.2 .any))

/-- `reset_blocks`: for each block in dict order, re-parent it to
`frames[name]` (a dict lookup that can raise `KeyError`) and restore its
captured absolute pose. -/
def reset_blocks (c : Config) (framesL : List (String × Item))
    (blockPoses : String → Pose) : List (String × Item) → St → St × Option Err
  | [], st => (st, none)
  | (name, it) :: rest, st =>
    match lookupA name framesL with
    | none => (st, some (.keyError name))
    | some _ =>
      let st := doSetParent c it.name name st
      let st := doSetPoseAbs it.name (blockPoses name) st
      reset_blocks c framesL blockPoses rest st

/-- `targets[name]` followed by a continuation; a missing key raises `KeyError`. -/
def withTarget (targetsL : List (String × Item)) (name : String) (st : St)
    (k : Item → St × Option Err) : St × Option Err :=
  match lookupA name targetsL with
  | none => (st, some (.keyError name))
  | some t => k t

/-- `frames[name]` followed by a continuation; a missing key raises `KeyError`. -/
def withFrame (framesL : List (String × Item)) (name : String) (st : St)
    (k : Item → St × Option Err) : St × Option Err :=
  match lookupA name framesL with
  | none => (st, some (.keyError name))
  | some f => k f

/-- The trajectory section of `__main__` (initialization, steps 1-8 and the
final reset), starting after all lookups or checks up to the TCP one. -/
def trajectory (c : Config) (framesL targetsL blocksL : List (String × Item))
    (blockPoses : String → Pose) (st : St) : St × Option Err :=
  withTarget targetsL "Open" st (fun _ =>
  let st := emitM c (.gripperMoveJ "Open") st
  let st := emitC (.setSpeedJoints 10) st
  let st := emitC (.setAccelerationJoints 5) st
  withTarget targetsL "Home" st (fun _ =>
  let st := emitM c (.robotMoveJ "Home") st
  withFrame framesL "Block1" st (fun _ =>
  let st := emitC (.setPoseFrame "Block1") st
  let st := emitC (.setSpeedJoints 10) st
  let st := emitC (.setAccelerationJoints 5) st
  withTarget targetsL "Aprox1" st (fun _ =>
  let st := emitM c (.robotMoveJ "Aprox1") st
  let st := emitC (.setSpeed 10) st
  let st := emitC (.setAcceleration 5) st
  withTarget targetsL "Block1" st (fun _ =>
  let st := emitM c (.robotMoveL "Block1") st
  withTarget targetsL "Close" st (fun _ =>
  let st := emitM c (.gripperMoveJ "Close") st
  let st := emitM c .attachClosest st
  let st := emitC (.setSpeedJoints 10) st
  let st := emitC (.setAccelerationJoints 5) st
  withFrame framesL "workframe" st (fun _ =>
  let st := emitC (.setPoseFrame "workframe") st
  withTarget targetsL "Obj1" st (fun _ =>
  let st := emitM c (.robotMoveJ "Obj1") st
  withTarget targetsL "Open" st (fun _ =>
  let st := emitM c (.gripperMoveJ "Open") st
  withFrame framesL "workframe" st (fun _ =>
  let st := emitM c (.detachAll "workframe") st
  withFrame framesL "Block1" st (fun _ =>
  let st := emitC (.setPoseFrame "Block1") st
  let st := emitC (.setSpeedJoints 10) st
  let st := emitC (.setAccelerationJoints 5) st
  withTarget targetsL "Aprox1" st (fun _ =>
  let st := emitM c (.robotMoveJ "Aprox1") st
  reset_blocks c framesL blockPoses blocksL st))))))))))))

/-- The `__main__` block: robot lookup and check, frame/target/block
resolution, pose capture, gripper and TCP lookups and checks (the TCP check
tests `gripper.Valid()` exactly as the source does), then the trajectory. -/
def runMain (c : Config) (initPoses : String → Pose) : St × Option Err :=
  let s := c.scene
  let st0 : St := ⟨[], initPoses⟩
  let robot := s.item "UR3e" .robot
  if robot.valid then
    let framesL := read_frames s FRAME_NAMES
    match read_targets s TARGET_NAMES with
    | .error e => (st0, some e)
    | .ok targetsL =>
      let blocksL := read_blocks s
      let blockPoses : String → Pose := fun name =>
        match lookupA name blocksL with
        | some it => st0.poses it.name
        | none => 0
      let gripper := s.item "Zimmer HRC-03 Gripper" .robot
      if gripper.valid then
        let _tcp := s.item "Tool 1" .tool
        if gripper.valid then
          trajectory c framesL targetsL blocksL blockPoses st0
        else (st0, some .tcpNotFound)
      else (st0, some (.gripperNotFound "Zimmer HRC-03 Gripper"))
  else (st0, some (.robotNotFound "UR3e"))

/-- A scene in which every (name, type) lookup returns a valid item. -/
def sceneAll : Scene := ⟨fun _ _ => true⟩

/-- A scene in which every lookup is valid except the target `Obj1`. -/
def sceneNoObj1 : Scene := ⟨fun n _ => if n = "Obj1" then false else true⟩

/-- A scene in which every lookup is valid except the tool `Tool 1`. -/
def sceneNoTool : Scene :=
  ⟨fun n ty => if n = "Tool 1" ∧ ty = ItemType.tool then false else true⟩

/-- A scene in which every lookup is valid except the robot `UR3e`. -/
def sceneNoRobot : Scene :=
  ⟨fun n ty => if n = "UR3e" ∧ ty = ItemType.robot then false else true⟩

/-- A scene in which every lookup is valid except the gripper. -/
def sceneNoGripper : Scene :=
  ⟨fun n ty => if n = "Zimmer HRC-03 Gripper" ∧ ty = ItemType.robot then false else true⟩

/-- A scene in which every lookup is valid except the frame `Block1`. -/
def sceneNoBlock1Frame : Scene :=
  ⟨fun n ty => if n = "Block1" ∧ ty = ItemType.frame then false else true⟩

/-- A scene in which every lookup is valid except the frame `workframe`. -/
def sceneNoWorkframe : Scene :=
  ⟨fun n ty => if n = "workframe" ∧ ty = ItemType.frame then false else true⟩

/-- A configuration over a scene with inert simulator physics. -/
def cfg0 (s : Scene) : Config := ⟨s, fun _ p => p, fun _ _ _ => 0⟩

/-- A configuration whose motion commands scramble every pose to 7 and whose
re-parenting moves the re-parented item to 5. -/
def cfgScramble (s : Scene) : Config := ⟨s, fun _ _ => fun _ => 7, fun _ _ _ => 5⟩

/-- The all-zero initial pose assignment. -/
def p0 : String → Pose := fun _ => 0

/-- The complete command trace of a fully successful run. -/
def fullTrace : List Ev :=
  [.gripperMoveJ "Open", .setSpeedJoints 10, .setAccelerationJoints 5,
   .robotMoveJ "Home", .setPoseFrame "Block1", .setSpeedJoints 10,
   .setAccelerationJoints 5, .robotMoveJ "Aprox1", .setSpeed 10,
   .setAcceleration 5, .robotMoveL "Block1", .gripperMoveJ "Close",
   .attachClosest, .setSpeedJoints 10, .setAccelerationJoints 5,
   .setPoseFrame "workframe", .robotMoveJ "Obj1", .gripperMoveJ "Open",
   .detachAll "workframe", .setPoseFrame "Block1", .setSpeedJoints 10,
   .setAccelerationJoints 5, .robotMoveJ "Aprox1",
   .setParent "_PIEZA_Bloque20x30x20" "Block1", .setPoseAbs "_PIEZA_Bloque20x30x20",
   .setParent "_PIEZA_Bloque20x30x10" "Block2", .setPoseAbs "_PIEZA_Bloque20x30x10",
   .setParent "_PIEZA_Bloque20x30x40" "Block3", .setPoseAbs "_PIEZA_Bloque20x30x40",
   .setParent "_PIEZA_Bloque20x30x30" "Block4", .setPoseAbs "_PIEZA_Bloque20x30x30"]

example : (runMain (cfg0 sceneAll) p0).1.trace = fullTrace := by decide
example : (runMain (cfg0 sceneAll) p0).2 = none := by decide
example : (runMain (cfgScramble sceneAll) (fun _ => 3)).1.poses "_PIEZA_Bloque20x30x20" = 3 := by decide
example : (runMain (cfgScramble sceneAll) (fun _ => 3)).1.poses "other" = 7 := by decide
example : (runMain (cfg0 sceneNoObj1) p0).1.trace = [] := by decide
example : (runMain (cfg0 sceneNoObj1) p0).2 = some (.targetNotFound "Obj1") := by decide
example : (runMain (cfg0 sceneNoTool) p0).2 = none := by decide
example : (runMain (cfg0 sceneNoRobot) p0).2 = some (.robotNotFound "UR3e") := by decide
example : (runMain (cfg0 sceneNoGripper) p0).2 = some (.gripperNotFound "Zimmer HRC-03 Gripper") := by decide
example : (runMain (cfg0 sceneNoBlock1Frame) p0).2 = some (.keyError "Block1") := by decide
example : (runMain (cfg0 sceneNoBlock1Frame) p0).1.trace =
    [.gripperMoveJ "Open", .setSpeedJoints 10, .setAccelerationJoints 5, .robotMoveJ "Home"] := by decide

/-- All lookups performed by the script succeed in scene `s`. -/
def AllValid (s : Scene) : Prop :=
  (∀ n ∈ FRAME_NAMES, s.validAt n .frame = true) ∧
  (∀ n ∈ TARGET_NAMES, s.validAt n .target = true) ∧
  s.validAt "UR3e" .robot = true ∧
  s.validAt "Zimmer HRC-03 Gripper" .robot = true

lemma runMain_allValid_run (c : Config) (p : String → Pose) (h : AllValid c.scene) :
    (runMain c p).1.trace = fullTrace ∧ (runMain c p).2 = none := by
  obtain ⟨hF, hT, hR, hG⟩ := h
  have hF1 := hF "Ground" (by simp [FRAME_NAMES])
  have hF2 := hF "Table" (by simp [FRAME_NAMES])
  have hF3 := hF "Base Frame" (by simp [FRAME_NAMES])
  have hF4 := hF "workframe" (by simp [FRAME_NAMES])
  have hF5 := hF "UR3e Base" (by simp [FRAME_NAMES])
  have hF6 := hF "Block1" (by simp [FRAME_NAMES])
  have hF7 := hF "Block2" (by simp [FRAME_NAMES])
  have hF8 := hF "Block3" (by simp [FRAME_NAMES])
  have hF9 := hF "Block4" (by simp [FRAME_NAMES])
  have hF10 := hF "Gripper" (by simp [FRAME_NAMES])
  have hT1 := hT "Home" (by simp [TARGET_NAMES])
  have hT2 := hT "Aprox1" (by simp [TARGET_NAMES])
  have hT3 := hT "Block1" (by simp [TARGET_NAMES])
  have hT4 := hT "Obj1" (by simp [TARGET_NAMES])
  have hT5 := hT "Close" (by simp [TARGET_NAMES])
  have hT6 := hT "Open" (by simp [TARGET_NAMES])
  simp [runMain, read_frames, read_targets, read_blocks, FRAME_NAMES, TARGET_NAMES,
    BLOCK_ITEMS, trajectory, withTarget, withFrame, lookupA, reset_blocks,
    emitM, emitC, doSetParent, doSetPoseAbs, Scene.item, fullTrace,
    hF1, hF2, hF3, hF4, hF5, hF6, hF7, hF8, hF9, hF10,
    hT1, hT2, hT3, hT4, hT5, hT6, hR, hG]

lemma runMain_allValid_poses (c : Config) (p : String → Pose) (h : AllValid c.scene) :
    (runMain c p).1.poses "_PIEZA_Bloque20x30x20" = p "_PIEZA_Bloque20x30x20" ∧
    (runMain c p).1.poses "_PIEZA_Bloque20x30x10" = p "_PIEZA_Bloque20x30x10" ∧
    (runMain c p).1.poses "_PIEZA_Bloque20x30x40" = p "_PIEZA_Bloque20x30x40" ∧
    (runMain c p).1.poses "_PIEZA_Bloque20x30x30" = p "_PIEZA_Bloque20x30x30" := by
  obtain ⟨hF, hT, hR, hG⟩ := h
  have hF1 := hF "Ground" (by simp [FRAME_NAMES])
  have hF2 := hF "Table" (by simp [FRAME_NAMES])
  have hF3 := hF "Base Frame" (by simp [FRAME_NAMES])
  have hF4 := hF "workframe" (by simp [FRAME_NAMES])
  have hF5 := hF "UR3e Base" (by simp [FRAME_NAMES])
  have hF6 := hF "Block1" (by simp [FRAME_NAMES])
  have hF7 := hF "Block2" (by simp [FRAME_NAMES])
  have hF8 := hF "Block3" (by simp [FRAME_NAMES])
  have hF9 := hF "Block4" (by simp [FRAME_NAMES])
  have hF10 := hF "Gripper" (by simp [FRAME_NAMES])
  have hT1 := hT "Home" (by simp [TARGET_NAMES])
  have hT2 := hT "Aprox1" (by simp [TARGET_NAMES])
  have hT3 := hT "Block1" (by simp [TARGET_NAMES])
  have hT4 := hT "Obj1" (by simp [TARGET_NAMES])
  have hT5 := hT "Close" (by simp [TARGET_NAMES])
  have hT6 := hT "Open" (by simp [TARGET_NAMES])
  simp [runMain, read_frames, read_targets, read_blocks, FRAME_NAMES, TARGET_NAMES,
    BLOCK_ITEMS, trajectory, withTarget, withFrame, lookupA, reset_blocks,
    emitM, emitC, doSetParent, doSetPoseAbs, Scene.item,
    hF1, hF2, hF3, hF4, hF5, hF6, hF7, hF8, hF9, hF10,
    hT1, hT2, hT3, hT4, hT5, hT6, hR, hG]

lemma read_targets_first_invalid (s : Scene) :
    ∀ names : List String, (∃ n ∈ names, s.validAt n .target = false) →
      ∃ m ∈ names, s.validAt m .target = false ∧
        read_targets s names = .error (.targetNotFound m) := by
  intro names
  induction names with
  | nil =>
    rintro ⟨n, hn, _⟩
    cases hn
  | cons a rest ih =>
    rintro ⟨n, hn, hinv⟩
    by_cases ha : s.validAt a .target = true
    · have hnr : n ∈ rest := by
        rcases List.mem_cons.mp hn with h | h
        · subst h
          rw [ha] at hinv
          simp at hinv
        · exact h
      obtain ⟨m, hm, hmi, hme⟩ := ih ⟨n, hnr, hinv⟩
      refine ⟨m, List.mem_cons_of_mem _ hm, hmi, ?_⟩
      simp [read_targets, Scene.item, ha, hme]
    · have haf : s.validAt a .target = false := by simpa using ha
      exact ⟨a, List.mem_cons_self a rest, haf,
        by simp [read_targets, Scene.item, haf]⟩

lemma runMain_targets_error (c : Config) (p : String → Pose) (e : Err)
    (hR : c.scene.validAt "UR3e" ItemType.robot = true)
    (hE : read_targets c.scene TARGET_NAMES = .error e) :
    runMain c p = (⟨[], p⟩, some e) := by
  simp [runMain, Scene.item, hR, hE]

lemma read_frames_eq (s : Scene) (names : List String) :
    read_frames s names =
      (names.filter (fun n => s.validAt n .frame)).map (fun n => (n, s.item n .frame)) := by
  induction names with
  | nil => simp [read_frames]
  | cons a rest ih =>
    by_cases ha : s.validAt a .frame = true
    · simp [read_frames, Scene.item, ha, ih, List.filter_cons]
    · have haf : s.validAt a .frame = false := by simpa using ha
      simp [read_frames, Scene.item, haf, ih, List.filter_cons]

/-- C1: the claim says every required-name lookup, including the tool lookup
of Tool 1, aborts the run with a descriptive error before any motion when
the item is missing.  The code instead re-tests `gripper.Valid()` on the TCP
check, so a scene whose only missing item is the tool Tool 1 never aborts:
the run finishes with no error and issues the full command trace, motion
commands included. -/
theorem claim_C1_missing_tool_not_aborted :
    sceneNoTool.validAt "Tool 1" ItemType.tool = false ∧
    (runMain (cfg0 sceneNoTool) p0).2 = none ∧
    (runMain (cfg0 sceneNoTool) p0).1.trace = fullTrace ∧
    (runMain (cfg0 sceneNoTool) p0).1.trace.filter isMotionCmd ≠ [] := by
  decide

/-- C2: on a run where every lookup succeeds, whatever the simulator's
motion and re-parenting effects do to poses, the run completes and
`reset_blocks` leaves every block's absolute pose exactly equal to the pose
it had at the start of the run, i.e. the value captured into `blockPoses`
before any motion command was issued. -/
theorem claim_C2_reset_restores_initial_poses (c : Config) (p : String → Pose)
    (h : AllValid c.scene) :
    (runMain c p).2 = none ∧
    ∀ pr ∈ BLOCK_ITEMS, (runMain c p).1.poses pr.2 = p pr.2 := by
  have hrun := runMain_allValid_run c p h
  have hps := runMain_allValid_poses c p h
  refine ⟨hrun.2, ?_⟩
  intro pr hpr
  simp [BLOCK_ITEMS] at hpr
  rcases hpr with h1 | h2 | h3 | h4
  · rw [h1]; exact hps.1
  · rw [h2]; exact hps.2.1
  · rw [h3]; exact hps.2.2.1
  · rw [h4]; exact hps.2.2.2

theorem claim_C2_reset_restores_initial_poses_witness :
    (runMain (cfgScramble sceneAll) (fun _ => 3)).2 = none ∧
    ∀ pr ∈ BLOCK_ITEMS,
      (runMain (cfgScramble sceneAll) (fun _ => 3)).1.poses pr.2 = 3 :=
  claim_C2_reset_restores_initial_poses (cfgScramble sceneAll) (fun _ => 3)
    (by refine ⟨?_, ?_, rfl, rfl⟩ <;> intro n _ <;> rfl)

/-- C3 counterexample: in a scene where the targets Home, Aprox1, Block1,
Close and Open and the robot and gripper are all valid but nothing more, the
run does not issue the five claimed motion commands: `read_targets` also
resolves Obj1 (a member of TARGET_NAMES), so the run aborts naming Obj1
with an empty command trace, before any motion. -/
theorem claim_C3_counterexample :
    (∀ n ∈ ["Home", "Aprox1", "Block1", "Close", "Open"],
      sceneNoObj1.validAt n ItemType.target = true) ∧
    sceneNoObj1.validAt "UR3e" ItemType.robot = true ∧
    sceneNoObj1.validAt "Zimmer HRC-03 Gripper" ItemType.robot = true ∧
    (runMain (cfg0 sceneNoObj1) p0).1.trace.filter isMotionCmd ≠
      [.gripperMoveJ "Open", .robotMoveJ "Home", .robotMoveJ "Aprox1",
       .robotMoveL "Block1", .gripperMoveJ "Close"] ∧
    (runMain (cfg0 sceneNoObj1) p0).2 ≠ none ∧
    (runMain (cfg0 sceneNoObj1) p0).1.trace = [] ∧
    (runMain (cfg0 sceneNoObj1) p0).2 = some (.targetNotFound "Obj1") := by
  decide

/-- C3 amended: when every name the script looks up is valid — in
particular Obj1, which TARGET_NAMES also contains — the run aborts nowhere
and its first five motion commands are exactly gripper-open, the Home joint
move, the Aprox1 joint move, the Block1 linear move and gripper-close, in
that order (the sequence then continues past the close). -/
theorem claim_C3_first_five_motions (c : Config) (p : String → Pose)
    (h : AllValid c.scene) :
    ((runMain c p).1.trace.filter isMotionCmd).take 5 =
      [.gripperMoveJ "Open", .robotMoveJ "Home", .robotMoveJ "Aprox1",
       .robotMoveL "Block1", .gripperMoveJ "Close"] ∧
    (runMain c p).2 = none := by
  have hrun := runMain_allValid_run c p h
  refine ⟨?_, hrun.2⟩
  rw [hrun.1]
  decide

theorem claim_C3_first_five_motions_witness :
    ((runMain (cfg0 sceneAll) p0).1.trace.filter isMotionCmd).take 5 =
      [.gripperMoveJ "Open", .robotMoveJ "Home", .robotMoveJ "Aprox1",
       .robotMoveL "Block1", .gripperMoveJ "Close"] ∧
    (runMain (cfg0 sceneAll) p0).2 = none :=
  claim_C3_first_five_motions (cfg0 sceneAll) p0
    (by refine ⟨?_, ?_, rfl, rfl⟩ <;> intro n _ <;> rfl)

/-- C4: if the robot lookup succeeds and TARGET_NAMES contains a name whose
target is missing from the scene, the run stops with the ValueError raised
by `read_targets` naming a missing target, and the command trace is empty:
no motion call has been issued. -/
theorem claim_C4_missing_target_aborts (c : Config) (p : String → Pose)
    (hR : c.scene.validAt "UR3e" ItemType.robot = true)
    (hx : ∃ n ∈ TARGET_NAMES, c.scene.validAt n ItemType.target = false) :
    ∃ m ∈ TARGET_NAMES, c.scene.validAt m ItemType.target = false ∧
      (runMain c p).2 = some (.targetNotFound m) ∧
      (runMain c p).1.trace = [] := by
  obtain ⟨m, hm, hmi, hme⟩ := read_targets_first_invalid c.scene TARGET_NAMES hx
  have h2 := runMain_targets_error c p _ hR hme
  exact ⟨m, hm, hmi, by rw [h2], by rw [h2]⟩

theorem claim_C4_missing_target_aborts_witness :
    ∃ m ∈ TARGET_NAMES, sceneNoObj1.validAt m ItemType.target = false ∧
      (runMain (cfg0 sceneNoObj1) p0).2 = some (.targetNotFound m) ∧
      (runMain (cfg0 sceneNoObj1) p0).1.trace = [] :=
  claim_C4_missing_target_aborts (cfg0 sceneNoObj1) p0 (by decide)
    ⟨"Obj1", by decide, by decide⟩

/-- C5: `read_frames` resolves exactly the valid names, in order: a missing
name is omitted from the returned mapping and resolution of every remaining
name still happens — each later valid name still appears with its looked-up
item — and no missing name ever aborts the function. -/
theorem claim_C5_optional_frames (s : Scene) (names : List String) :
    read_frames s names =
      (names.filter (fun n => s.validAt n .frame)).map
        (fun n => (n, s.item n .frame)) ∧
    (∀ n ∈ names, s.validAt n .frame = true →
      (n, s.item n .frame) ∈ read_frames s names) ∧
    (∀ n ∈ names, s.validAt n .frame = false →
      ∀ it : Item, (n, it) ∉ read_frames s names) := by
  refine ⟨read_frames_eq s names, ?_, ?_⟩
  · intro n hn hv
    rw [read_frames_eq]
    exact List.mem_map.mpr ⟨n, List.mem_filter.mpr ⟨hn, hv⟩, rfl⟩
  · intro n hn hv it hmem
    rw [read_frames_eq] at hmem
    obtain ⟨m, hmf, hme⟩ := List.mem_map.mp hmem
    simp at hme
    obtain ⟨hmn, _⟩ := hme
    subst hmn
    have hvt := (List.mem_filter.mp hmf).2
    rw [hv] at hvt
    simp at hvt

/-- C6: on a run where every lookup succeeds, the run aborts nowhere and the
command trace equals the declared sequence exactly — open, home, Aprox1,
Block1, close, attach, Obj1, open, detach, Aprox1 and the per-block reset —
with every configuration command interleaved in program order, hence no
reordering or skipping. -/
theorem claim_C6_declared_order (c : Config) (p : String → Pose)
    (h : AllValid c.scene) :
    (runMain c p).1.trace = fullTrace ∧ (runMain c p).2 = none :=
  runMain_allValid_run c p h

theorem claim_C6_declared_order_witness :
    (runMain (cfg0 sceneAll) p0).1.trace = fullTrace ∧
    (runMain (cfg0 sceneAll) p0).2 = none :=
  claim_C6_declared_order (cfg0 sceneAll) p0
    (by refine ⟨?_, ?_, rfl, rfl⟩ <;> intro n _ <;> rfl)

/-- C7: a missing robot UR3e aborts the run at once with the ValueError
naming the robot, and — when the robot and all targets resolve — a missing
gripper aborts with the ValueError naming the gripper; in both cases the
command trace is empty, so no motion command has executed. -/
theorem claim_C7_robot_gripper_required (c : Config) (p : String → Pose) :
    (c.scene.validAt "UR3e" ItemType.robot = false →
      (runMain c p).1.trace = [] ∧
      (runMain c p).2 = some (.robotNotFound "UR3e")) ∧
    (c.scene.validAt "UR3e" ItemType.robot = true →
      (∀ n ∈ TARGET_NAMES, c.scene.validAt n ItemType.target = true) →
      c.scene.validAt "Zimmer HRC-03 Gripper" ItemType.robot = false →
      (runMain c p).1.trace = [] ∧
      (runMain c p).2 = some (.gripperNotFound "Zimmer HRC-03 Gripper")) := by
  constructor
  · intro hr
    constructor <;> simp [runMain, Scene.item, hr]
  · intro hr hT hg
    have hT1 := hT "Home" (by simp [TARGET_NAMES])
    have hT2 := hT "Aprox1" (by simp [TARGET_NAMES])
    have hT3 := hT "Block1" (by simp [TARGET_NAMES])
    have hT4 := hT "Obj1" (by simp [TARGET_NAMES])
    have hT5 := hT "Close" (by simp [TARGET_NAMES])
    have hT6 := hT "Open" (by simp [TARGET_NAMES])
    constructor <;>
      simp [runMain, read_targets, read_blocks, TARGET_NAMES, BLOCK_ITEMS,
        Scene.item, hr, hg, hT1, hT2, hT3, hT4, hT5, hT6]

theorem claim_C7_robot_gripper_required_witness :
    ((runMain (cfg0 sceneNoRobot) p0).1.trace = [] ∧
     (runMain (cfg0 sceneNoRobot) p0).2 = some (.robotNotFound "UR3e")) ∧
    ((runMain (cfg0 sceneNoGripper) p0).1.trace = [] ∧
     (runMain (cfg0 sceneNoGripper) p0).2 =
       some (.gripperNotFound "Zimmer HRC-03 Gripper")) :=
  ⟨(claim_C7_robot_gripper_required (cfg0 sceneNoRobot) p0).1 (by decide),
   (claim_C7_robot_gripper_required (cfg0 sceneNoGripper) p0).2
     (by decide) (by decide) (by decide)⟩

/-- C8: a missing optional frame never stops frame resolution; the run
fails at the first later step that subscripts `frames` with that name.
With only the frame Block1 missing, the gripper-open and Home motion
commands execute and the run stops with a KeyError on Block1 at the
`setPoseFrame` before the Aprox1 move, with nothing after the Home move in
the trace.  With only the frame workframe missing, the run executes the
whole open, home, Aprox1, Block1, close and attach steps and stops with a
KeyError on workframe exactly at the `setPoseFrame(frames["workframe"])`
before the Obj1 move — the first of its points of use — with no later
command in the trace. -/
theorem claim_C8_missing_frame_fails_at_use (c : Config) (p : String → Pose)
    (hT : ∀ n ∈ TARGET_NAMES, c.scene.validAt n ItemType.target = true)
    (hR : c.scene.validAt "UR3e" ItemType.robot = true)
    (hG : c.scene.validAt "Zimmer HRC-03 Gripper" ItemType.robot = true) :
    (c.scene.validAt "Block1" ItemType.frame = false →
     (∀ n ∈ FRAME_NAMES, n ≠ "Block1" → c.scene.validAt n ItemType.frame = true) →
      (runMain c p).1.trace =
        [.gripperMoveJ "Open", .setSpeedJoints 10, .setAccelerationJoints 5,
         .robotMoveJ "Home"] ∧
      (runMain c p).2 = some (.keyError "Block1")) ∧
    (c.scene.validAt "workframe" ItemType.frame = false →
     (∀ n ∈ FRAME_NAMES, n ≠ "workframe" → c.scene.validAt n ItemType.frame = true) →
      (runMain c p).1.trace =
        [.gripperMoveJ "Open", .setSpeedJoints 10, .setAccelerationJoints 5,
         .robotMoveJ "Home", .setPoseFrame "Block1", .setSpeedJoints 10,
         .setAccelerationJoints 5, .robotMoveJ "Aprox1", .setSpeed 10,
         .setAcceleration 5, .robotMoveL "Block1", .gripperMoveJ "Close",
         .attachClosest, .setSpeedJoints 10, .setAccelerationJoints 5] ∧
      (runMain c p).2 = some (.keyError "workframe")) := by
  have hT1 := hT "Home" (by simp [TARGET_NAMES])
  have hT2 := hT "Aprox1" (by simp [TARGET_NAMES])
  have hT3 := hT "Block1" (by simp [TARGET_NAMES])
  have hT4 := hT "Obj1" (by simp [TARGET_NAMES])
  have hT5 := hT "Close" (by simp [TARGET_NAMES])
  have hT6 := hT "Open" (by simp [TARGET_NAMES])
  constructor
  · intro hB hF
    have hF1 := hF "Ground" (by simp [FRAME_NAMES]) (by decide)
    have hF2 := hF "Table" (by simp [FRAME_NAMES]) (by decide)
    have hF3 := hF "Base Frame" (by simp [FRAME_NAMES]) (by decide)
    have hF4 := hF "workframe" (by simp [FRAME_NAMES]) (by decide)
    have hF5 := hF "UR3e Base" (by simp [FRAME_NAMES]) (by decide)
    have hF7 := hF "Block2" (by simp [FRAME_NAMES]) (by decide)
    have hF8 := hF "Block3" (by simp [FRAME_NAMES]) (by decide)
    have hF9 := hF "Block4" (by simp [FRAME_NAMES]) (by decide)
    have hF10 := hF "Gripper" (by simp [FRAME_NAMES]) (by decide)
    constructor <;>
      simp [runMain, read_frames, read_targets, read_blocks, FRAME_NAMES,
        TARGET_NAMES, BLOCK_ITEMS, trajectory, withTarget, withFrame, lookupA,
        emitM, emitC, Scene.item, hB, hF1, hF2, hF3, hF4, hF5, hF7, hF8, hF9,
        hF10, hT1, hT2, hT3, hT4, hT5, hT6, hR, hG]
  · intro hW hF
    have hF1 := hF "Ground" (by simp [FRAME_NAMES]) (by decide)
    have hF2 := hF "Table" (by simp [FRAME_NAMES]) (by decide)
    have hF3 := hF "Base Frame" (by simp [FRAME_NAMES]) (by decide)
    have hF5 := hF "UR3e Base" (by simp [FRAME_NAMES]) (by decide)
    have hF6 := hF "Block1" (by simp [FRAME_NAMES]) (by decide)
    have hF7 := hF "Block2" (by simp [FRAME_NAMES]) (by decide)
    have hF8 := hF "Block3" (by simp [FRAME_NAMES]) (by decide)
    have hF9 := hF "Block4" (by simp [FRAME_NAMES]) (by decide)
    have hF10 := hF "Gripper" (by simp [FRAME_NAMES]) (by decide)
    constructor <;>
      simp [runMain, read_frames, read_targets, read_blocks, FRAME_NAMES,
        TARGET_NAMES, BLOCK_ITEMS, trajectory, withTarget, withFrame, lookupA,
        emitM, emitC, Scene.item, hW, hF1, hF2, hF3, hF5, hF6, hF7, hF8, hF9,
        hF10, hT1, hT2, hT3, hT4, hT5, hT6, hR, hG]

theorem claim_C8_missing_frame_fails_at_use_witness :
    ((runMain (cfg0 sceneNoBlock1Frame) p0).1.trace =
       [.gripperMoveJ "Open", .setSpeedJoints 10, .setAccelerationJoints 5,
        .robotMoveJ "Home"] ∧
     (runMain (cfg0 sceneNoBlock1Frame) p0).2 = some (.keyError "Block1")) ∧
    ((runMain (cfg0 sceneNoWorkframe) p0).1.trace =
       [.gripperMoveJ "Open", .setSpeedJoints 10, .setAccelerationJoints 5,
        .robotMoveJ "Home", .setPoseFrame "Block1", .setSpeedJoints 10,
        .setAccelerationJoints 5, .robotMoveJ "Aprox1", .setSpeed 10,
        .setAcceleration 5, .robotMoveL "Block1", .gripperMoveJ "Close",
        .attachClosest, .setSpeedJoints 10, .setAccelerationJoints 5] ∧
     (runMain (cfg0 sceneNoWorkframe) p0).2 = some (.keyError "workframe")) :=
  ⟨(claim_C8_missing_frame_fails_at_use (cfg0 sceneNoBlock1Frame) p0
      (by decide) (by decide) (by decide)).1 (by decide) (by decide),
   (claim_C8_missing_frame_fails_at_use (cfg0 sceneNoWorkframe) p0
      (by decide) (by decide) (by decide)).2 (by decide) (by decide)⟩

/-- C9: `read_blocks` is a total function of the scene: for every scene,
missing blocks included, it returns the dictionary with exactly the four
keys Block1-Block4 bound to the untyped lookups of the four raw item names,
and it inspects no validity bit and raises nothing. -/
theorem claim_C9_read_blocks_unchecked (s : Scene) :
    read_blocks s =
      [("Block1", s.item "_PIEZA_Bloque20x30x20" ItemType.any),
       ("Block2", s.item "_PIEZA_Bloque20x30x10" ItemType.any),
       ("Block3", s.item "_PIEZA_Bloque20x30x40" ItemType.any),
       ("Block4", s.item "_PIEZA_Bloque20x30x30" ItemType.any)] ∧
    (read_blocks s).map Prod.fst = ["Block1", "Block2", "Block3", "Block4"] := by
  constructor <;> rfl

/-- C10: `reset_blocks` re-parents each block to `frames[name]` where the
key is the block's own logical name (no captured original parent exists);
if the frame registry has an entry for Block1 but none for Block2, the
reset re-parents and restores Block1 only, then stops with a KeyError on
Block2, leaving the poses of Block2, Block3 and Block4 untouched. -/
theorem claim_C10_reset_reparents_and_requires_frames (c : Config) (st : St)
    (framesL : List (String × Item)) (blockPoses : String → Pose) (f1 : Item)
    (h1 : lookupA "Block1" framesL = some f1)
    (h2 : lookupA "Block2" framesL = none) :
    (reset_blocks c framesL blockPoses (read_blocks c.scene) st).2 =
      some (.keyError "Block2") ∧
    (reset_blocks c framesL blockPoses (read_blocks c.scene) st).1.trace =
      st.trace ++ [.setParent "_PIEZA_Bloque20x30x20" "Block1",
                   .setPoseAbs "_PIEZA_Bloque20x30x20"] ∧
    (reset_blocks c framesL blockPoses (read_blocks c.scene) st).1.poses
        "_PIEZA_Bloque20x30x20" = blockPoses "Block1" ∧
    (reset_blocks c framesL blockPoses (read_blocks c.scene) st).1.poses
        "_PIEZA_Bloque20x30x10" = st.poses "_PIEZA_Bloque20x30x10" ∧
    (reset_blocks c framesL blockPoses (read_blocks c.scene) st).1.poses
        "_PIEZA_Bloque20x30x40" = st.poses "_PIEZA_Bloque20x30x40" ∧
    (reset_blocks c framesL blockPoses (read_blocks c.scene) st).1.poses
        "_PIEZA_Bloque20x30x30" = st.poses "_PIEZA_Bloque20x30x30" := by
  refine ⟨?_, ?_, ?_, ?_, ?_, ?_⟩ <;>
    simp [reset_blocks, read_blocks, BLOCK_ITEMS, Scene.item, doSetParent,
      doSetPoseAbs, h1, h2]

/-- The one-entry frame registry used to witness the reset KeyError. -/
def framesOnlyBlock1 : List (String × Item) :=
  [("Block1", Scene.item sceneAll "Block1" ItemType.frame)]

theorem claim_C10_reset_reparents_and_requires_frames_witness :
    (reset_blocks (cfg0 sceneAll) framesOnlyBlock1 (fun _ => 9)
      (read_blocks sceneAll) ⟨[], p0⟩).2 = some (.keyError "Block2") ∧
    (reset_blocks (cfg0 sceneAll) framesOnlyBlock1 (fun _ => 9)
      (read_blocks sceneAll) ⟨[], p0⟩).1.trace =
      [.setParent "_PIEZA_Bloque20x30x20" "Block1",
       .setPoseAbs "_PIEZA_Bloque20x30x20"] ∧
    (reset_blocks (cfg0 sceneAll) framesOnlyBlock1 (fun _ => 9)
      (read_blocks sceneAll) ⟨[], p0⟩).1.poses "_PIEZA_Bloque20x30x20" = 9 ∧
    (reset_blocks (cfg0 sceneAll) framesOnlyBlock1 (fun _ => 9)
      (read_blocks sceneAll) ⟨[], p0⟩).1.poses "_PIEZA_Bloque20x30x10" = 0 ∧
    (reset_blocks (cfg0 sceneAll) framesOnlyBlock1 (fun _ => 9)
      (read_blocks sceneAll) ⟨[], p0⟩).1.poses "_PIEZA_Bloque20x30x40" = 0 ∧
    (reset_blocks (cfg0 sceneAll) framesOnlyBlock1 (fun _ => 9)
      (read_blocks sceneAll) ⟨[], p0⟩).1.poses "_PIEZA_Bloque20x30x30" = 0 :=
  claim_C10_reset_reparents_and_requires_frames (cfg0 sceneAll) ⟨[], p0⟩
    framesOnlyBlock1 (fun _ => 9) (Scene.item sceneAll "Block1" ItemType.frame)
    (by decide) (by decide)
